import Mathlib

/-!
Shallow embedding of the Flowmatic queue-management backend
(ticket lifecycle engine, queue snapshot builder, transaction client,
reset/preset service) together with theorems checking the
natural-language specification against the code.

Modelling conventions:
* SQL rows are Lean structures; a table is a `List` of rows in rowid order.
* Nullable SQL columns are `Option` fields.
* ISO-8601 timestamp strings are modelled as `Int` milliseconds: both the
  SQL `ORDER BY` on the TEXT column (lexicographic on ISO strings) and the
  JavaScript `new Date(a) - new Date(b)` arithmetic agree with the `Int`
  ordering and subtraction.
* JavaScript truthiness on nullable strings (`s || null`) and nullable
  integer ids (`v || d`) is modelled explicitly (`jsStrOrNull`, `jsIdOr`).
* Each engine operation takes a store and returns
  `Except HttpError result × Store`; an `.error` outcome returns the
  original store, mirroring the transaction rollback of `withTransaction`.
-/

namespace Flowmatic

/-- A ticket row (table `tickets`). `pfx`-style renamings are noted
where Lean keywords force them. -/
structure Ticket where
  id : Nat
  ticket_number : String
  service_id : Nat
  priority : Int
  state : String
  created_at : Option Int
  called_at : Option Int
  served_at : Option Int
  completed_at : Option Int
  estimated_wait : Option Int
  actual_wait : Option Int
  service_duration : Option Int
  counter_id : Option Nat
  agent_id : Option Nat
  recall_count : Int
  original_service_id : Option Nat
  transferred_at : Option Int
  notes : Option String
  customer_name : Option String
  customer_phone : Option String
  customer_email : Option String
  deriving Repr, DecidableEq

/-- A counter row (table `counters`). -/
structure Counter where
  id : Nat
  state : String
  current_agent_id : Option Nat
  current_ticket_id : Option Nat
  default_service_id : Option Nat
  deriving Repr, DecidableEq

/-- A service row (table `services`). `pfx` models the `prefix`
column (a Lean keyword). -/
structure Service where
  id : Nat
  name : String
  pfx : String
  range_start : Option Int
  range_end : Option Int
  current_number : Option Int
  estimated_service_time : Option Int
  priority : Int
  is_active : Bool
  deriving Repr, DecidableEq

/-- An agent-service assignment row (table `agent_services`). -/
structure AgentService where
  agent_id : Nat
  service_id : Nat
  priority : Int
  deriving Repr, DecidableEq

/-- The persistent store: each table in rowid order plus the
auto-increment sequence for `tickets`. -/
structure Store where
  tickets : List Ticket
  counters : List Counter
  services : List Service
  agent_services : List AgentService
  nextTicketId : Nat
  deriving Repr, DecidableEq

/-- A thrown HTTP error (`httpError(status, message)` in the source). -/
structure HttpError where
  status : Nat
  message : String
  deriving Repr, DecidableEq

/-- JavaScript `s || null` on a nullable string column: the empty string is
falsy and collapses to null. -/
def jsStrOrNull : Option String → Option String
  | none => none
  | some s => if s = "" then none else some s

/-- JavaScript `v || d` on a nullable integer id column: null and 0 are
falsy and fall back to the default. -/
def jsIdOr (v : Option Nat) (d : Nat) : Nat :=
  match v with
  | none => d
  | some x => if x = 0 then d else x

/-- JavaScript `a || b` on two nullable timestamp columns
(`ticket.served_at || ticket.called_at`). -/
def jsTsOr (a b : Option Int) : Option Int :=
  match a with
  | none => b
  | some x => some x

/-- Stable insertion of an element into a list sorted by `le`
(used to model a SQL `ORDER BY`). -/
def insertLe {α : Type} (le : α → α → Bool) (x : α) : List α → List α
  | [] => [x]
  | y :: ys => if le x y then x :: y :: ys else y :: insertLe le x ys

/-- Stable insertion sort by `le`; models a SQL `ORDER BY` over a result
set (stability refines SQLite's unspecified tie order by rowid order). -/
def sortByLe {α : Type} (le : α → α → Bool) : List α → List α
  | [] => []
  | x :: xs => insertLe le x (sortByLe le xs)

/-- `ORDER BY created_at ASC` on the nullable TEXT column: SQL NULLs sort
first in ascending order. -/
def createdAtLe (a b : Option Int) : Bool :=
  match a, b with
  | none, _ => true
  | some _, none => false
  | some x, some y => x ≤ y

/-- The canonical waiting-queue ordering `ORDER BY priority DESC,
created_at ASC` as a boolean relation on tickets. -/
def snapshotLe (a b : Ticket) : Bool :=
  b.priority < a.priority || (a.priority == b.priority && createdAtLe a.created_at b.created_at)

/-- `state IN ('waiting', 'recycled')`. -/
def isWaitingState (s : String) : Bool :=
  s == "waiting" || s == "recycled"

/-- `EXISTS (SELECT 1 FROM services s WHERE s.id = ?)` — the `JOIN
services` clause of the engine's ticket reads. -/
def serviceExists (st : Store) (sid : Nat) : Bool :=
  st.services.any (fun s => s.id == sid)

/-- The queue snapshot (`getQueueSnapshot` in the terminal router):
waiting/serving counts and the ordered waiting list for one service. -/
structure Snapshot where
  serviceId : Nat
  waiting : Nat
  serving : Nat
  tickets : List Ticket
  deriving Repr, DecidableEq

/-- `getQueueSnapshot(tx, serviceId)`: counts `waiting`+`recycled` as
waiting and `called` as serving, and lists the `waiting`+`recycled`
tickets `ORDER BY priority DESC, created_at ASC`. -/
def getQueueSnapshot (st : Store) (sid : Nat) : Snapshot :=
  { serviceId := sid
    waiting := (st.tickets.filter (fun t => t.service_id == sid && isWaitingState t.state)).length
    serving := (st.tickets.filter (fun t => t.service_id == sid && t.state == "called")).length
    tickets := sortByLe snapshotLe
      (st.tickets.filter (fun t => t.service_id == sid && isWaitingState t.state)) }

/-- `UPDATE tickets SET ... WHERE id = ?`. -/
def updateTicket (st : Store) (tid : Nat) (f : Ticket → Ticket) : Store :=
  { st with tickets := st.tickets.map (fun t => if t.id == tid then f t else t) }

/-- `UPDATE counters SET ... WHERE id = ?`. -/
def updateCounter (st : Store) (cid : Nat) (f : Counter → Counter) : Store :=
  { st with counters := st.counters.map (fun c => if c.id == cid then f c else c) }

/-- `SELECT service_id FROM agent_services WHERE agent_id = ? ORDER BY
priority` — the agent's assignment list. -/
def agentAssignmentsFor (st : Store) (agentId : Nat) : List AgentService :=
  sortByLe (fun a b => a.priority ≤ b.priority)
    (st.agent_services.filter (fun a => a.agent_id == agentId))

/-- `SELECT s.id, ... FROM services s WHERE s.id = ? AND s.is_active = 1`. -/
def findActiveService (st : Store) (sid : Nat) : Option Service :=
  st.services.find? (fun s => s.id == sid && s.is_active)

/-- The counter-default fallback of call-next: `FROM counters c JOIN
services s ON s.id = c.default_service_id WHERE c.id = ? AND
s.is_active = 1`. -/
def counterDefaultService (st : Store) (counterId : Nat) : Option Service :=
  match st.counters.find? (fun c => c.id == counterId) with
  | none => none
  | some c =>
    match c.default_service_id with
    | none => none
    | some ds => findActiveService st ds

/-- The final fallback of call-next: `SELECT id, name, prefix FROM
services WHERE is_active = 1 ORDER BY priority, id LIMIT 1`. -/
def firstActiveService (st : Store) : Option Service :=
  (sortByLe (fun a b => a.priority < b.priority || (a.priority == b.priority && a.id ≤ b.id))
    (st.services.filter (fun s => s.is_active))).head?

/-- The service-resolution chain of `POST /call-next` when no specific
ticket is requested: requested service (with the assignment check) →
agent's first assignment → counter default service → first active
service → 400. -/
def resolveServiceContext (st : Store) (counterId agentId : Nat)
    (requestedServiceId : Option Nat) : Except HttpError Service :=
  match requestedServiceId with
  | some sid =>
    match findActiveService st sid with
    | none => .error ⟨404, "Requested service not found"⟩
    | some svc =>
      if !(agentAssignmentsFor st agentId).isEmpty &&
          !((agentAssignmentsFor st agentId).any (fun a => a.service_id == sid)) then
        .error ⟨403, "Agent is not assigned to this service"⟩
      else
        .ok svc
  | none =>
    if !(agentAssignmentsFor st agentId).isEmpty then
      match (agentAssignmentsFor st agentId).head? with
      | none => .error ⟨400, "Unable to determine service for agent"⟩
      | some a =>
        match findActiveService st a.service_id with
        | some svc => .ok svc
        | none => .error ⟨400, "Unable to determine service for agent"⟩
    else
      match counterDefaultService st counterId with
      | some svc => .ok svc
      | none =>
        match firstActiveService st with
        | some svc => .ok svc
        | none => .error ⟨400, "Unable to determine service for agent"⟩

/-- The FIFO ticket pick of call-next: `SELECT t.* FROM tickets t JOIN
services s ON t.service_id = s.id WHERE t.service_id = ? AND
t.state = 'waiting' ORDER BY t.created_at LIMIT 1`. Note: this read
orders by `created_at` only. -/
def waitingPickFifo (st : Store) (sid : Nat) : Option Ticket :=
  (sortByLe (fun a b => createdAtLe a.created_at b.created_at)
    (st.tickets.filter
      (fun t => t.service_id == sid && t.state == "waiting" && serviceExists st t.service_id))).head?

/-- The read/validation phase of `POST /call-next`: either the requested
ticket (with the agent-authorization check) or the head of the resolved
service's FIFO pick. -/
def callNextCore (st : Store) (counterId agentId : Nat)
    (requestedServiceId requestedTicketId : Option Nat) : Except HttpError Ticket :=
  match requestedTicketId with
  | some tid =>
    match st.tickets.find?
        (fun t => t.id == tid && t.state == "waiting" && serviceExists st t.service_id) with
    | none => .error ⟨404, "Requested ticket is not available for calling"⟩
    | some t =>
      if st.agent_services.any (fun a => a.agent_id == agentId && a.service_id == t.service_id) then
        .ok t
      else
        .error ⟨403, "Agent is not authorized for this service"⟩
  | none => do
    let svc ← resolveServiceContext st counterId agentId requestedServiceId
    match waitingPickFifo st svc.id with
    | none => .error ⟨404, "No tickets waiting in queue"⟩
    | some t => .ok t

/-- The success payload of `POST /call-next`. -/
structure CallNextRes where
  ticketId : Nat
  ticketNumber : String
  serviceId : Nat
  calledAt : Int
  queue : Snapshot
  deriving Repr, DecidableEq

/-- `POST /call-next` as one transaction: validate and pick, mark the
ticket `called` (setting called_at/served_at/counter_id/agent_id and
incrementing recall_count), mark the counter `serving`, and build the
post-transition queue snapshot. An error leaves the store unchanged
(rollback). -/
def callNext (counterId agentId : Nat) (requestedServiceId requestedTicketId : Option Nat)
    (now : Int) (st : Store) : Except HttpError CallNextRes × Store :=
  match callNextCore st counterId agentId requestedServiceId requestedTicketId with
  | .error e => (.error e, st)
  | .ok t =>
    let st1 := updateTicket st t.id (fun u =>
      { u with
        state := "called"
        called_at := some now
        served_at := some now
        counter_id := some counterId
        agent_id := some agentId
        recall_count := u.recall_count + 1 })
    let st2 := updateCounter st1 counterId (fun c =>
      { c with
        current_ticket_id := some t.id
        current_agent_id := some agentId
        state := "serving" })
    (.ok
      { ticketId := t.id
        ticketNumber := t.ticket_number
        serviceId := t.service_id
        calledAt := now
        queue := getQueueSnapshot st2 t.service_id }, st2)

/-- The ticket lookup of `POST /complete` and `POST /recycle`:
`SELECT t.*, s.name FROM tickets t JOIN services s ON t.service_id = s.id
WHERE t.id = ? AND t.counter_id = ? AND t.agent_id = ?`. -/
def findAssignedTicket (st : Store) (ticketId counterId agentId : Nat) : Option Ticket :=
  st.tickets.find? (fun t =>
    t.id == ticketId && t.counter_id == some counterId && t.agent_id == some agentId &&
      serviceExists st t.service_id)

/-- The ticket lookup of `POST /transfer`, `POST /recall`, `POST /no-show`:
as `findAssignedTicket` but additionally `t.state = 'called'`. -/
def findCalledTicket (st : Store) (ticketId counterId agentId : Nat) : Option Ticket :=
  st.tickets.find? (fun t =>
    t.id == ticketId && t.state == "called" && t.counter_id == some counterId &&
      t.agent_id == some agentId && serviceExists st t.service_id)

/-- The success payload of `POST /complete`. -/
structure CompleteRes where
  ticketId : Nat
  ticketNumber : String
  serviceId : Nat
  completedAt : Int
  actualWait : Option Int
  serviceDuration : Option Int
  queue : Snapshot
  deriving Repr, DecidableEq

/-- `POST /complete`: 404 when the ticket is not assigned to this
counter/agent, 400 when already completed; otherwise set the ticket
`completed` with completed_at, whole-second actual_wait
(`Math.floor((servedAt − created_at) / 1000)`, with
`servedAt = served_at || called_at`) and service_duration
(`Math.floor((now − servedAt) / 1000)`), each only when its source
timestamps exist; free the counter. -/
def completeOp (ticketId counterId agentId : Nat) (notes : Option String) (now : Int)
    (st : Store) : Except HttpError CompleteRes × Store :=
  match findAssignedTicket st ticketId counterId agentId with
  | none => (.error ⟨404, "Ticket not found or not assigned to this counter/agent"⟩, st)
  | some t =>
    if t.state = "completed" then
      (.error ⟨400, "Ticket already completed"⟩, st)
    else
      let servedAt := jsTsOr t.served_at t.called_at
      let actualWait : Option Int :=
        match t.created_at, servedAt with
        | some c, some s => some (Int.fdiv (s - c) 1000)
        | _, _ => none
      let serviceDuration : Option Int :=
        match servedAt with
        | some s => some (Int.fdiv (now - s) 1000)
        | none => none
      let st1 := updateTicket st ticketId (fun u =>
        { u with
          state := "completed"
          completed_at := some now
          actual_wait := actualWait
          service_duration := serviceDuration
          notes := notes })
      let st2 := updateCounter st1 counterId (fun c =>
        { c with current_ticket_id := none, state := "available" })
      (.ok
        { ticketId := ticketId
          ticketNumber := t.ticket_number
          serviceId := t.service_id
          completedAt := now
          actualWait := actualWait
          serviceDuration := serviceDuration
          queue := getQueueSnapshot st2 t.service_id }, st2)

/-- The success payload of `POST /recycle`. -/
structure RecycleRes where
  ticketId : Nat
  ticketNumber : String
  serviceId : Nat
  recycledAt : Int
  requestedPosition : Nat
  queue : Snapshot
  deriving Repr, DecidableEq

/-- `POST /recycle`: 404 when the ticket is not assigned to this
counter/agent, 400 when not in `called` state; otherwise return the
ticket to `waiting`, clearing counter_id/agent_id/called_at/served_at,
and free the counter. The caller-supplied `position` is carried only in
the response/broadcast metadata. -/
def recycleOp (ticketId counterId agentId : Nat) (position : Nat) (now : Int)
    (st : Store) : Except HttpError RecycleRes × Store :=
  match findAssignedTicket st ticketId counterId agentId with
  | none => (.error ⟨404, "Ticket not found or not assigned to this counter/agent"⟩, st)
  | some t =>
    if t.state ≠ "called" then
      (.error ⟨400, "Ticket is not currently being served"⟩, st)
    else
      let st1 := updateTicket st ticketId (fun u =>
        { u with
          state := "waiting"
          counter_id := none
          agent_id := none
          called_at := none
          served_at := none })
      let st2 := updateCounter st1 counterId (fun c =>
        { c with current_ticket_id := none, state := "available" })
      (.ok
        { ticketId := ticketId
          ticketNumber := t.ticket_number
          serviceId := t.service_id
          recycledAt := now
          requestedPosition := position
          queue := getQueueSnapshot st2 t.service_id }, st2)

/-- The success payload of `POST /transfer`. -/
structure TransferRes where
  newTicketId : Nat
  oldNumber : String
  newNumber : String
  serviceId : Nat
  originalServiceId : Nat
  transferredAt : Int
  fromQueue : Snapshot
  toQueue : Snapshot
  deriving Repr, DecidableEq

/-- `POST /transfer`: 404 when the ticket is not `called` at this
counter/agent, 400 when the target service is missing/inactive or equals
the ticket's service; otherwise insert a new `waiting` ticket in the
target service carrying forward ticket_number, priority, customer
fields (JS `|| null` on strings), created_at (`|| now`),
original_service_id (`|| service_id`), estimated_wait, recall_count and
notes, setting transferred_at; free the counter; delete the old row. -/
def transferOp (ticketId targetServiceId counterId agentId : Nat) (now : Int)
    (st : Store) : Except HttpError TransferRes × Store :=
  match findCalledTicket st ticketId counterId agentId with
  | none => (.error ⟨404, "Ticket not found or not in called state"⟩, st)
  | some t =>
    match findActiveService st targetServiceId with
    | none => (.error ⟨400, "Invalid target service"⟩, st)
    | some targetService =>
      if targetService.id = t.service_id then
        (.error ⟨400, "Cannot transfer to the same service"⟩, st)
      else
        let fromServiceId := t.service_id
        let originalServiceId := jsIdOr t.original_service_id t.service_id
        let createdAt : Int := (t.created_at).getD now
        let newTicket : Ticket :=
          { id := st.nextTicketId
            ticket_number := t.ticket_number
            service_id := targetServiceId
            priority := t.priority
            state := "waiting"
            created_at := some createdAt
            called_at := none
            served_at := none
            completed_at := none
            estimated_wait := t.estimated_wait
            actual_wait := none
            service_duration := none
            counter_id := none
            agent_id := none
            recall_count := t.recall_count
            original_service_id := some originalServiceId
            transferred_at := some now
            notes := t.notes
            customer_name := jsStrOrNull t.customer_name
            customer_phone := jsStrOrNull t.customer_phone
            customer_email := jsStrOrNull t.customer_email }
        let st1 : Store :=
          { st with tickets := st.tickets ++ [newTicket], nextTicketId := st.nextTicketId + 1 }
        let st2 := updateCounter st1 counterId (fun c =>
          { c with current_ticket_id := none, state := "available" })
        let st3 : Store :=
          { st2 with tickets := st2.tickets.filter (fun u => !(u.id == ticketId)) }
        (.ok
          { newTicketId := newTicket.id
            oldNumber := t.ticket_number
            newNumber := newTicket.ticket_number
            serviceId := targetServiceId
            originalServiceId := originalServiceId
            transferredAt := now
            fromQueue := getQueueSnapshot st3 fromServiceId
            toQueue := getQueueSnapshot st3 targetServiceId }, st3)

/-! ## Transaction client (`withTransaction` in dbClient.js) -/

/-- How a unit of work ended: `COMMIT` or `ROLLBACK` was issued. -/
inductive TxEnd where
  | committed
  | rolledBack
  deriving Repr, DecidableEq

/-- One statement of a unit of work run on the live connection: it reads
the current store and either mutates it or throws. -/
def WorkStep (E : Type) : Type := Store → Except E Store

/-- Sequential execution of a unit of work on the live connection: each
step sees the writes of the previous ones; an error aborts the rest. -/
def runSteps {E : Type} : List (WorkStep E) → Store → Except E Store
  | [], st => .ok st
  | f :: fs, st =>
    match f st with
    | .error e => .error e
    | .ok st' => runSteps fs st'

/-- `withTransaction(work)`: `BEGIN`, run the work, `COMMIT` and return
its result on success; on a throw, `ROLLBACK` (restoring the
pre-transaction store) and rethrow. -/
def withTransaction {E R : Type} (steps : List (WorkStep E)) (res : Store → R)
    (st : Store) : Except E R × Store × TxEnd :=
  match runSteps steps st with
  | .ok st' => (.ok (res st'), st', .committed)
  | .error e => (.error e, st, .rolledBack)

/-! ## Reset/Preset service (part of the admin surface) -/

/-- The outcome of `performSystemReset`. -/
inductive ResetOutcome where
  | skipped
  | done (deletedTickets : Nat)
  deriving Repr, DecidableEq

/-- `performSystemReset`: when the in-process `resetInProgress` flag is
set, return `{skipped: true}` at once; otherwise, in one transaction,
clear every counter's current_ticket_id (moving `serving` counters to
`available`), delete all tickets, reset the tickets auto-increment
sequence, and zero every service's current_number. The boolean in the
result records whether a transaction was opened. -/
def performSystemReset (resetInProgress : Bool) (st : Store) :
    ResetOutcome × Store × Bool :=
  if resetInProgress then
    (.skipped, st, false)
  else
    let deleted := st.tickets.length
    let st' : Store :=
      { tickets := []
        counters := st.counters.map (fun c =>
          { c with
            current_ticket_id := none
            state := if c.state = "serving" then "available" else c.state })
        services := st.services.map (fun s => { s with current_number := some 0 })
        agent_services := st.agent_services
        nextTicketId := 1 }
    (.done deleted, st', true)

/-- Zero-pad to (at least) three digits: JS
`String(n).padStart(3, '0')`. -/
def pad3 (n : Int) : String :=
  let s := toString n
  if s.length < 3 then String.mk (List.replicate (3 - s.length) '0') ++ s else s

/-- The result of `presetServiceQueue`. -/
structure PresetRes where
  insertedNumbers : List String
  skippedNumbers : List String
  finalNumber : Int
  deriving Repr, DecidableEq

/-- JavaScript `v || d` on a nullable integer column: null and 0 are
falsy and fall back to the default. -/
def jsIntOr (v : Option Int) (d : Int) : Int :=
  match v with
  | none => d
  | some x => if x = 0 then d else x

/-- The insert loop of `presetServiceQueue`: for `i = 1..count` build
`prefix + pad3(startNumber + i)`, skip numbers that already exist in the
service, and insert the rest as `waiting` tickets with
`estimated_wait = estimatedServiceTime * (existingWaiting + inserted)`
and `created_at = Date.now() + inserted`. -/
def presetInsertLoop (serviceId : Nat) (svc : Service) (startNumber : Int)
    (priority : Int) (now : Int) (existingWaiting : Nat) :
    Nat → Store → List String → List String →
    (Store × List String × List String)
  | 0, st, inserted, skipped => (st, inserted.reverse, skipped.reverse)
  | n + 1, st, inserted, skipped =>
    let i : Int := startNumber + (inserted.length + skipped.length) + 1
    let ticketNumber := svc.pfx ++ pad3 i
    if st.tickets.any (fun t => t.service_id == serviceId && t.ticket_number == ticketNumber) then
      presetInsertLoop serviceId svc startNumber priority now existingWaiting n st inserted
        (ticketNumber :: skipped)
    else
      let createdAt : Int := now + inserted.length
      let estimatedServiceTime := jsIntOr svc.estimated_service_time 300
      let queuePosition : Int := existingWaiting + inserted.length
      let newTicket : Ticket :=
        { id := st.nextTicketId
          ticket_number := ticketNumber
          service_id := serviceId
          priority := priority
          state := "waiting"
          created_at := some createdAt
          called_at := none
          served_at := none
          completed_at := none
          estimated_wait := some (estimatedServiceTime * queuePosition)
          actual_wait := none
          service_duration := none
          counter_id := none
          agent_id := none
          recall_count := 0
          original_service_id := none
          transferred_at := none
          notes := none
          customer_name := none
          customer_phone := none
          customer_email := none }
      presetInsertLoop serviceId svc startNumber priority now existingWaiting n
        { st with tickets := st.tickets ++ [newTicket], nextTicketId := st.nextTicketId + 1 }
        (ticketNumber :: inserted) skipped

/-- `SELECT COUNT(*) FROM tickets WHERE service_id = ? AND state IN
('waiting', 'recycled', 'called')` — the base queue size read by the
preset before inserting. -/
def presetExistingWaiting (st : Store) (serviceId : Nat) : Nat :=
  (st.tickets.filter (fun t =>
    t.service_id == serviceId &&
      (t.state == "waiting" || t.state == "recycled" || t.state == "called"))).length

/-- `presetServiceQueue({serviceId, startNumber, count, priority})`:
validate the arguments before any transaction (rejecting a non-positive
serviceId, a negative startNumber, a non-positive count and a count over
500), then transactionally insert up to `count` synthetic `waiting`
tickets, skipping ticket_number collisions, and advance the service's
current_number to at least `startNumber + count`. The boolean in the
result records whether a transaction was opened. -/
def presetServiceQueue (serviceId startNumber count priority : Int) (now : Int)
    (st : Store) : Except String PresetRes × Store × Bool :=
  if serviceId ≤ 0 then
    (.error "serviceId must be a positive integer", st, false)
  else if startNumber < 0 then
    (.error "startNumber must be zero or positive integer", st, false)
  else if count ≤ 0 then
    (.error "count must be a positive integer", st, false)
  else if count > 500 then
    (.error "count may not exceed 500 tickets per request", st, false)
  else
    match findActiveService st serviceId.toNat with
    | none => (.error "Service not found or inactive", st, true)
    | some svc =>
      let existingWaiting := presetExistingWaiting st serviceId.toNat
      let loopOut :=
        presetInsertLoop serviceId.toNat svc startNumber priority now existingWaiting
          count.toNat st [] []
      let st1 := loopOut.1
      let targetCurrentNumber := startNumber + count
      let newCurrentNumber := max ((svc.current_number).getD 0) targetCurrentNumber
      let st2 : Store :=
        { st1 with services := st1.services.map (fun s =>
            if s.id == serviceId.toNat then { s with current_number := some newCurrentNumber } else s) }
      (.ok
        { insertedNumbers := loopOut.2.1
          skippedNumbers := loopOut.2.2
          finalNumber := newCurrentNumber }, st2, true)

/-! ## Kiosk ticket creation (`POST /tickets` in kiosk.js) -/

/-- The success payload of kiosk `POST /tickets`. -/
structure CreateTicketRes where
  ticketId : Nat
  ticketNumber : String
  serviceId : Nat
  estimatedWait : Int
  deriving Repr, DecidableEq

/-- Kiosk `POST /tickets`: look up the active service (404 otherwise),
compute `nextNumber = max(current_number ?? 0, (range_start ?? 1) − 1) + 1`,
fail with 409 when a truthy range_end would be exceeded, otherwise
advance current_number to nextNumber and insert a `waiting` ticket
numbered `prefix + pad3(nextNumber)`. -/
def createTicket (serviceId : Nat) (priority : Int)
    (customerName customerPhone customerEmail : Option String) (now : Int)
    (st : Store) : Except HttpError CreateTicketRes × Store :=
  match findActiveService st serviceId with
  | none => (.error ⟨404, "Service not found or inactive"⟩, st)
  | some svc =>
    let baseNumber : Int := max ((svc.current_number).getD 0) (((svc.range_start).getD 1) - 1)
    let nextNumber : Int := baseNumber + 1
    let rangeExhausted : Bool :=
      match svc.range_end with
      | none => false
      | some e => if e = 0 then false else decide (e < nextNumber)
    if rangeExhausted then
      (.error ⟨409, "Service ticket range exhausted"⟩, st)
    else
      let ticketNumber := svc.pfx ++ pad3 nextNumber
      let estimatedServiceTime := jsIntOr svc.estimated_service_time 300
      let estimatedWait : Int := max 0 (estimatedServiceTime * (nextNumber - 1))
      let newTicket : Ticket :=
        { id := st.nextTicketId
          ticket_number := ticketNumber
          service_id := serviceId
          priority := priority
          state := "waiting"
          created_at := some now
          called_at := none
          served_at := none
          completed_at := none
          estimated_wait := some estimatedWait
          actual_wait := none
          service_duration := none
          counter_id := none
          agent_id := none
          recall_count := 0
          original_service_id := none
          transferred_at := none
          notes := none
          customer_name := customerName
          customer_phone := customerPhone
          customer_email := customerEmail }
      let st1 : Store :=
        { st with
          services := st.services.map (fun s =>
            if s.id == serviceId then { s with current_number := some nextNumber } else s)
          tickets := st.tickets ++ [newTicket]
          nextTicketId := st.nextTicketId + 1 }
      (.ok
        { ticketId := newTicket.id
          ticketNumber := ticketNumber
          serviceId := serviceId
          estimatedWait := estimatedWait }, st1)

/-! ## Concrete stores used by the counterexamples and witnesses -/

/-- A waiting ticket with only the fields the scenarios need. -/
def mkWaitingTicket (id sid : Nat) (prio : Int) (created : Int) : Ticket :=
  { id := id
    ticket_number := "T" ++ toString id
    service_id := sid
    priority := prio
    state := "waiting"
    created_at := some created
    called_at := none
    served_at := none
    completed_at := none
    estimated_wait := none
    actual_wait := none
    service_duration := none
    counter_id := none
    agent_id := none
    recall_count := 0
    original_service_id := none
    transferred_at := none
    notes := none
    customer_name := none
    customer_phone := none
    customer_email := none }

/-- An active service with prefix "A"-style numbering fields. -/
def mkService (id : Nat) (pfx : String) (rs re cn : Option Int) : Service :=
  { id := id
    name := "Service " ++ toString id
    pfx := pfx
    range_start := rs
    range_end := re
    current_number := cn
    estimated_service_time := some 300
    priority := 0
    is_active := true }

/-- An available counter with no default service. -/
def mkCounter (id : Nat) : Counter :=
  { id := id
    state := "available"
    current_agent_id := none
    current_ticket_id := none
    default_service_id := none }

/-- Store for the call-next ordering check: service 1 holds an older
priority-0 ticket (id 1) and a newer priority-2 ticket (id 2); agent 7
is assigned to service 1; counter 3 exists. -/
def c1Store : Store :=
  { tickets := [mkWaitingTicket 1 1 0 10, mkWaitingTicket 2 1 2 20]
    counters := [mkCounter 3]
    services := [mkService 1 "A" (some 1) (some 999) (some 2)]
    agent_services := [⟨7, 1, 1⟩]
    nextTicketId := 3 }

/-- A ticket currently `called` at a given counter by a given agent. -/
def mkCalledTicket (id sid counter agent : Nat) (created called : Int) : Ticket :=
  { mkWaitingTicket id sid 0 created with
    state := "called"
    called_at := some called
    served_at := some called
    counter_id := some counter
    agent_id := some agent }

/-- A completed ticket still assigned to counter 3 / agent 7. -/
def c3Ticket : Ticket :=
  { mkCalledTicket 1 1 3 7 10 20 with state := "completed", completed_at := some 30 }

/-- Store with a completed ticket still assigned to counter 3 / agent 7
(the double-completion scenario). -/
def c3Store : Store :=
  { tickets := [c3Ticket]
    counters := [mkCounter 3]
    services := [mkService 1 "A" (some 1) (some 999) (some 1)]
    agent_services := []
    nextTicketId := 2 }

/-- Store with a `called` ticket at counter 3 / agent 7 (the recycle
scenario). -/
def c4Store : Store :=
  { tickets := [mkCalledTicket 1 1 3 7 10 20]
    counters := [mkCounter 3]
    services := [mkService 1 "A" (some 1) (some 999) (some 1)]
    agent_services := []
    nextTicketId := 2 }

/-- The called ticket row of `c4Store`. -/
def c4Ticket : Ticket := mkCalledTicket 1 1 3 7 10 20

/-- A called ticket whose `served_at` is earlier than its `created_at`
(out-of-order timestamps). -/
def c5Ticket : Ticket := { mkCalledTicket 1 1 3 7 2000 0 with served_at := some 0 }

/-- Store whose called ticket has `served_at` earlier than `created_at`. -/
def c5Store : Store :=
  { tickets := [c5Ticket]
    counters := [mkCounter 3]
    services := [mkService 1 "A" (some 1) (some 999) (some 1)]
    agent_services := []
    nextTicketId := 2 }

/-- A called ticket carrying an empty-string customer_name. -/
def c2CexTicket : Ticket :=
  { mkCalledTicket 1 1 3 7 10 20 with customer_name := some "" }

/-- Store whose called ticket carries an empty-string customer_name,
with a second active service as transfer target. -/
def c2CexStore : Store :=
  { tickets := [c2CexTicket]
    counters := [mkCounter 3]
    services := [mkService 1 "A" (some 1) (some 999) (some 1),
                 mkService 2 "B" (some 1) (some 999) (some 0)]
    agent_services := []
    nextTicketId := 2 }

/-- A called ticket with ordinary customer fields. -/
def c2WitTicket : Ticket :=
  { mkCalledTicket 1 1 3 7 10 20 with
    customer_name := some "Ann"
    customer_email := some "ann@example.com" }

/-- Store with a called ticket carrying ordinary customer fields, used to
instantiate the transfer theorem. -/
def c2WitStore : Store :=
  { tickets := [c2WitTicket]
    counters := [mkCounter 3]
    services := [mkService 1 "A" (some 1) (some 999) (some 1),
                 mkService 2 "B" (some 1) (some 999) (some 0)]
    agent_services := []
    nextTicketId := 2 }

/-- Store with one active empty service, used for the preset and
creation scenarios. -/
def c6Store : Store :=
  { tickets := []
    counters := []
    services := [mkService 1 "A" (some 1) (some 999) (some 0)]
    agent_services := []
    nextTicketId := 1 }

/-- Store matching the numbering scenario: service with prefix "A",
range 1–999, current_number 0 and no tickets. -/
def c9Store : Store :=
  { tickets := []
    counters := []
    services := [mkService 1 "A" (some 1) (some 999) (some 0)]
    agent_services := []
    nextTicketId := 1 }

/-- Store for the unassigned-agent call-next scenario: agent 7 has no
agent_services rows; service 1 is active with one waiting ticket. -/
def c10Store : Store :=
  { tickets := [mkWaitingTicket 1 1 0 10]
    counters := [mkCounter 3]
    services := [mkService 1 "A" (some 1) (some 999) (some 1)]
    agent_services := []
    nextTicketId := 2 }

/-- A work step that writes (bumps the ticket sequence). -/
def stepBump : WorkStep String := fun st => .ok { st with nextTicketId := st.nextTicketId + 1 }

/-- A work step that throws. -/
def stepBoom : WorkStep String := fun _ => .error "boom"

/-! ## Shared lemmas -/

/-- Unpack a successful `findAssignedTicket` lookup. -/
theorem findAssignedTicket_spec {st : Store} {tid cid aid : Nat} {t : Ticket}
    (h : findAssignedTicket st tid cid aid = some t) :
    t ∈ st.tickets ∧ t.id = tid ∧ t.counter_id = some cid ∧ t.agent_id = some aid := by
  have hmem := List.mem_of_find?_eq_some h
  have hp := List.find?_some h
  simp only [Bool.and_eq_true, beq_iff_eq] at hp
  exact ⟨hmem, hp.1.1.1, hp.1.1.2, hp.1.2⟩

/-- Unpack a successful `findCalledTicket` lookup. -/
theorem findCalledTicket_spec {st : Store} {tid cid aid : Nat} {t : Ticket}
    (h : findCalledTicket st tid cid aid = some t) :
    t ∈ st.tickets ∧ t.id = tid ∧ t.state = "called" ∧ t.counter_id = some cid ∧
      t.agent_id = some aid := by
  have hmem := List.mem_of_find?_eq_some h
  have hp := List.find?_some h
  simp only [Bool.and_eq_true, beq_iff_eq] at hp
  exact ⟨hmem, hp.1.1.1.1, hp.1.1.1.2, hp.1.1.2, hp.1.2⟩

/-- `updateCounter` leaves the tickets table unchanged. -/
theorem updateCounter_tickets (st : Store) (cid : Nat) (f : Counter → Counter) :
    (updateCounter st cid f).tickets = st.tickets := rfl

/-- `updateTicket` leaves the counters table unchanged. -/
theorem updateTicket_counters (st : Store) (tid : Nat) (f : Ticket → Ticket) :
    (updateTicket st tid f).counters = st.counters := rfl

/-- Sequencing of work steps across an append. -/
theorem runSteps_append {E : Type} (pre post : List (WorkStep E)) (st : Store) :
    runSteps (pre ++ post) st =
      match runSteps pre st with
      | .ok st' => runSteps post st'
      | .error e => .error e := by
  induction pre generalizing st with
  | nil => simp [runSteps]
  | cons f fs ih =>
    simp only [List.cons_append, runSteps]
    cases f st with
    | error e => rfl
    | ok st' => exact ih st'

/-- JS `v || d` agrees with `Option.getD` away from the falsy id 0. -/
theorem jsIdOr_eq_getD {v : Option Nat} {d : Nat} (h : v ≠ some 0) :
    jsIdOr v d = v.getD d := by
  cases v with
  | none => rfl
  | some x =>
    have hx : x ≠ 0 := fun hx => h (by simp [hx])
    simp [jsIdOr, hx]

/-! ## Theorems -/

/-- C1: the canonical-ordering claim fails on the code. In `c1Store`,
service 1's waiting pool holds tickets of differing priorities; the
snapshot builder orders ticket 2 (priority 2) first under
`priority DESC, created_at ASC`, yet call-next (no requested ticketId)
selects ticket 1, because its `SELECT` orders by `created_at` alone.
Evaluated at the failing input: call-next picks id 1 while the Queue
Snapshot Builder's ordered list starts with id 2. -/
theorem C1_callnext_ordering_divergence :
    ((callNext 3 7 (some 1) none 100 c1Store).1.toOption.map CallNextRes.ticketId) = some 1 ∧
    ((getQueueSnapshot c1Store 1).tickets.map Ticket.id) = [2, 1] ∧
    (c1Store.tickets.map Ticket.priority) = [0, 2] := by
  refine ⟨by decide, by decide, by decide⟩

/-- C7: when another reset is in flight (the in-process boolean guard is
set), `performSystemReset` returns skipped immediately: the store is
returned untouched — no counters, tickets, sequences or services are
modified — and no transaction is opened. -/
theorem C7_reset_mutual_exclusion (st : Store) :
    performSystemReset true st = (.skipped, st, false) := rfl

/-- C8: transactional atomicity of `withTransaction`. If the unit of
work throws at any point — after any prefix of its steps has already
written to the live store — a ROLLBACK is issued, the error is
rethrown, and the resulting store is the pre-transaction store (no
partial state change persists). A COMMIT is issued only when every step
succeeds, and then the work's result is returned unchanged over the
fully-written store. -/
theorem C8_withTransaction_atomicity {E R : Type} (res : Store → R) (st : Store) :
    (∀ (pre post : List (WorkStep E)) (f : WorkStep E) (st₁ : Store) (e : E),
        runSteps pre st = .ok st₁ → f st₁ = .error e →
        withTransaction (pre ++ f :: post) res st = (.error e, st, .rolledBack)) ∧
    (∀ (steps : List (WorkStep E)) (st' : Store),
        runSteps steps st = .ok st' →
        withTransaction steps res st = (.ok (res st'), st', .committed)) := by
  constructor
  · intro pre post f st₁ e hpre hf
    unfold withTransaction
    rw [runSteps_append, hpre]
    simp [runSteps, hf]
  · intro steps st' hok
    unfold withTransaction
    rw [hok]

/-- C8 witness: a two-step unit of work whose first step bumps the
ticket sequence and whose second step throws rolls back to the original
store. -/
theorem C8_withTransaction_atomicity_witness :
    withTransaction [stepBump, stepBoom] (fun s => s.nextTicketId) c1Store =
      (.error "boom", c1Store, .rolledBack) :=
  (C8_withTransaction_atomicity (fun s => s.nextTicketId) c1Store).1
    [stepBump] [] stepBoom { c1Store with nextTicketId := c1Store.nextTicketId + 1 }
    "boom" rfl rfl

/-- C3: complete rejects double-completion atomically. For a ticket
already `completed` and assigned to the requesting counter and agent, a
second complete call returns the 400 "Ticket already completed" error
and the store — hence the ticket's state and every other field — is
unchanged. -/
theorem C3_double_complete_rejected (st : Store) (tid cid aid : Nat)
    (notes : Option String) (now : Int) (t : Ticket)
    (h : findAssignedTicket st tid cid aid = some t)
    (hstate : t.state = "completed") :
    completeOp tid cid aid notes now st = (.error ⟨400, "Ticket already completed"⟩, st) := by
  unfold completeOp
  rw [h]
  simp [hstate]

/-- C3 witness: the double-completion rejection evaluated on `c3Store`. -/
theorem C3_double_complete_rejected_witness :
    completeOp 1 3 7 none 100 c3Store = (.error ⟨400, "Ticket already completed"⟩, c3Store) :=
  C3_double_complete_rejected c3Store 1 3 7 none 100 c3Ticket (by decide) (by decide)

/-- C4: recycling a `called` ticket assigned to the requesting
counter/agent succeeds, puts exactly that ticket back into `waiting`
with counter_id, agent_id, called_at and served_at cleared while every
other field — in particular priority and created_at, hence the physical
queue ordering — is preserved (the membership of the record-update of
`t` keeps all remaining fields), leaves every other ticket row intact,
sets the counter to `available` with current_ticket_id null, and
produces the same store for every caller-supplied `position` value. -/
theorem C4_recycle_clears_and_preserves (st : Store) (tid cid aid pos : Nat)
    (now : Int) (t : Ticket)
    (h : findAssignedTicket st tid cid aid = some t)
    (hstate : t.state = "called") :
    ((recycleOp tid cid aid pos now st).1.isOk = true) ∧
    ({ t with
        state := "waiting"
        counter_id := none
        agent_id := none
        called_at := none
        served_at := none } ∈ (recycleOp tid cid aid pos now st).2.tickets) ∧
    (∀ u ∈ st.tickets, u.id ≠ tid → u ∈ (recycleOp tid cid aid pos now st).2.tickets) ∧
    (∀ c ∈ st.counters, c.id = cid →
        { c with current_ticket_id := none, state := "available" } ∈
          (recycleOp tid cid aid pos now st).2.counters) ∧
    (∀ pos', (recycleOp tid cid aid pos' now st).2 = (recycleOp tid cid aid pos now st).2) := by
  obtain ⟨hmem, hid, _, _⟩ := findAssignedTicket_spec h
  have hcalled : ¬(t.state ≠ "called") := by simp [hstate]
  refine ⟨?_, ?_, ?_, ?_, ?_⟩
  · simp [recycleOp, h, hcalled, Except.isOk, Except.toBool]
  · simp only [recycleOp, h, if_neg hcalled, updateCounter_tickets, updateTicket]
    refine List.mem_map.mpr ⟨t, hmem, ?_⟩
    simp [hid]
  · intro u hu hne
    simp only [recycleOp, h, if_neg hcalled, updateCounter_tickets, updateTicket]
    refine List.mem_map.mpr ⟨u, hu, ?_⟩
    simp [hne]
  · intro c hc hcid
    simp only [recycleOp, h, if_neg hcalled, updateCounter, updateTicket_counters]
    refine List.mem_map.mpr ⟨c, hc, ?_⟩
    simp [hcid]
  · intro pos'
    simp [recycleOp, h, hcalled]

/-- C4 witness: recycling the called ticket of `c4Store` succeeds and
re-inserts it as `waiting` with the assignment fields cleared. -/
theorem C4_recycle_clears_and_preserves_witness :
    ((recycleOp 1 3 7 3 100 c4Store).1.isOk = true) ∧
    ({ c4Ticket with
        state := "waiting"
        counter_id := none
        agent_id := none
        called_at := none
        served_at := none } ∈ (recycleOp 1 3 7 3 100 c4Store).2.tickets) := by
  have happ := C4_recycle_clears_and_preserves c4Store 1 3 7 3 100 c4Ticket (by decide) (by decide)
  exact ⟨happ.1, happ.2.1⟩

/-- C5 counterexample: completing the `c5Store` ticket, whose
`served_at` (0) is earlier than its `created_at` (2000), stores
`actual_wait = -2`: the claim that actual_wait is never negative fails —
the null-existence guard does not prevent negative values. -/
theorem C5_negative_wait_counterexample :
    ((completeOp 1 3 7 none 5000 c5Store).1.toOption.map CompleteRes.actualWait) =
      some (some (-2)) ∧ (-2 : Int) < 0 := by
  exact ⟨by decide, by decide⟩

/-- C5 (amended): for every ticket completed by `POST /complete`,
actual_wait and service_duration are whole-second values obtained by
floored division (`Int.fdiv · 1000`) of millisecond differences —
actual_wait from the served timestamp (`served_at`, falling back to
`called_at`) minus created_at, service_duration from the completion
time minus that served timestamp — each computed only when its source
timestamps exist and null otherwise; they are nonnegative whenever the
source timestamps are ordered (created ≤ served ≤ completion), though
out-of-order timestamps produce negative values. -/
theorem C5_wait_duration_semantics (st : Store) (tid cid aid : Nat)
    (notes : Option String) (now : Int) (t : Ticket)
    (h : findAssignedTicket st tid cid aid = some t)
    (hstate : t.state ≠ "completed") :
    (((completeOp tid cid aid notes now st).1.toOption.map CompleteRes.actualWait) =
      some (match t.created_at, jsTsOr t.served_at t.called_at with
        | some c, some s => some (Int.fdiv (s - c) 1000)
        | _, _ => none)) ∧
    (((completeOp tid cid aid notes now st).1.toOption.map CompleteRes.serviceDuration) =
      some (match jsTsOr t.served_at t.called_at with
        | some s => some (Int.fdiv (now - s) 1000)
        | none => none)) ∧
    ({ t with
        state := "completed"
        completed_at := some now
        actual_wait := (match t.created_at, jsTsOr t.served_at t.called_at with
          | some c, some s => some (Int.fdiv (s - c) 1000)
          | _, _ => none)
        service_duration := (match jsTsOr t.served_at t.called_at with
          | some s => some (Int.fdiv (now - s) 1000)
          | none => none)
        notes := notes } ∈ (completeOp tid cid aid notes now st).2.tickets) ∧
    (∀ c s, t.created_at = some c → jsTsOr t.served_at t.called_at = some s → c ≤ s →
      ∃ w, (match t.created_at, jsTsOr t.served_at t.called_at with
        | some c', some s' => some (Int.fdiv (s' - c') 1000)
        | _, _ => none) = some w ∧ 0 ≤ w) ∧
    (∀ s, jsTsOr t.served_at t.called_at = some s → s ≤ now →
      ∃ d, (match jsTsOr t.served_at t.called_at with
        | some s' => some (Int.fdiv (now - s') 1000)
        | none => none) = some d ∧ 0 ≤ d) := by
  obtain ⟨hmem, hid, _, _⟩ := findAssignedTicket_spec h
  refine ⟨?_, ?_, ?_, ?_, ?_⟩
  · simp only [completeOp, h, if_neg hstate, Except.toOption, Option.map]
  · simp only [completeOp, h, if_neg hstate, Except.toOption, Option.map]
  · simp only [completeOp, h, if_neg hstate, updateCounter_tickets, updateTicket]
    refine List.mem_map.mpr ⟨t, hmem, ?_⟩
    simp [hid]
  · intro c s hc hs hle
    refine ⟨Int.fdiv (s - c) 1000, ?_, ?_⟩
    · simp [hc, hs]
    · exact Int.fdiv_nonneg (by omega) (by omega)
  · intro s hs hle
    refine ⟨Int.fdiv (now - s) 1000, ?_, ?_⟩
    · simp [hs]
    · exact Int.fdiv_nonneg (by omega) (by omega)

/-- C5 witness: completing the ordinary called ticket of `c4Store`
(created 10, served 20) at time 100 stores actual_wait 0 seconds and
service_duration 0 seconds per the floored-division formulas. -/
theorem C5_wait_duration_semantics_witness :
    ((completeOp 1 3 7 none 100 c4Store).1.toOption.map CompleteRes.actualWait) =
      some (some 0) := by
  have happ :=
    C5_wait_duration_semantics c4Store 1 3 7 none 100 c4Ticket (by decide) (by decide)
  simpa [c4Ticket, mkCalledTicket, mkWaitingTicket, jsTsOr] using happ.1

/-- C2 counterexample: transferring the `c2CexStore` ticket, whose
customer_name is the empty string, produces a new row whose
customer_name is null (the JS `ticket.customer_name || null` treats ""
as falsy), so the new row does not carry "the same" customer_name. -/
theorem C2_empty_string_counterexample :
    (((transferOp 1 2 3 7 50 c2CexStore).2.tickets.filter (fun u => u.id == 2)).map
        Ticket.customer_name) = [none] ∧
    (c2CexStore.tickets.map Ticket.customer_name) = [some ""] ∧
    ((transferOp 1 2 3 7 50 c2CexStore).1.isOk = true) := by
  exact ⟨by decide, by decide, by decide⟩

/-- C2 (amended): transfer is atomic and preserving. For every ticket in
`called` state at the requesting counter/agent and every active target
service different from the ticket's service, after a successful transfer
the old ticket row no longer exists, exactly one new ticket row exists —
in the target service, in `waiting` state, with the same ticket_number
and priority, with customer_name/phone/email carried over up to
empty-string-to-null normalisation (`jsStrOrNull`), with
original_service_id equal to the old ticket's original_service_id when
set and otherwise the old ticket's service_id, and with transferred_at
set — and the counter is freed to `available`. -/
theorem C2_transfer_atomic_preserving (st : Store) (tid tgt cid aid : Nat)
    (now : Int) (t : Ticket) (svc : Service)
    (h : findCalledTicket st tid cid aid = some t)
    (hsvc : findActiveService st tgt = some svc)
    (hne : svc.id ≠ t.service_id)
    (h0 : t.original_service_id ≠ some 0)
    (hfresh : ∀ u ∈ st.tickets, u.id < st.nextTicketId) :
    ((transferOp tid tgt cid aid now st).1.isOk = true) ∧
    (∀ u ∈ (transferOp tid tgt cid aid now st).2.tickets, u.id ≠ tid) ∧
    (((transferOp tid tgt cid aid now st).2.tickets.filter
        (fun u => u.id == st.nextTicketId)).length = 1) ∧
    (∀ u ∈ (transferOp tid tgt cid aid now st).2.tickets, u.id = st.nextTicketId →
      u.service_id = tgt ∧ u.state = "waiting" ∧ u.ticket_number = t.ticket_number ∧
      u.priority = t.priority ∧ u.customer_name = jsStrOrNull t.customer_name ∧
      u.customer_phone = jsStrOrNull t.customer_phone ∧
      u.customer_email = jsStrOrNull t.customer_email ∧
      u.original_service_id = some ((t.original_service_id).getD t.service_id) ∧
      u.transferred_at = some now) ∧
    (∀ c ∈ st.counters, c.id = cid →
      { c with current_ticket_id := none, state := "available" } ∈
        (transferOp tid tgt cid aid now st).2.counters) := by
  obtain ⟨hmem, hid, hstate, hcid, haid⟩ := findCalledTicket_spec h
  have htidlt : tid < st.nextTicketId := hid ▸ hfresh t hmem
  refine ⟨?_, ?_, ?_, ?_, ?_⟩
  · simp [transferOp, h, hsvc, hne, Except.isOk, Except.toBool]
  · intro u hu
    simp only [transferOp, h, hsvc, if_neg hne, updateCounter_tickets] at hu
    have := (List.mem_filter.mp hu).2
    simpa using this
  · simp only [transferOp, h, hsvc, if_neg hne, updateCounter_tickets]
    rw [List.filter_filter, List.filter_append]
    have hnil : ∀ p : Ticket → Bool,
        (∀ u ∈ st.tickets, p u = false) → st.tickets.filter p = [] := by
      intro p hp
      exact List.filter_eq_nil_iff.mpr (fun a ha => by simp [hp a ha])
    rw [hnil _ (by
      intro u hu
      have : u.id < st.nextTicketId := hfresh u hu
      simp only [Bool.and_eq_false_iff]
      left
      simpa using Nat.ne_of_lt this)]
    simp [Nat.ne_of_gt htidlt]
  · intro u hu huid
    simp only [transferOp, h, hsvc, if_neg hne, updateCounter_tickets] at hu
    have humem := (List.mem_filter.mp hu).1
    rcases List.mem_append.mp humem with hold | hnew
    · exact absurd huid (Nat.ne_of_lt (hfresh u hold))
    · have hu' : u = _ := List.mem_singleton.mp hnew
      subst hu'
      refine ⟨rfl, rfl, rfl, rfl, rfl, rfl, rfl, ?_, rfl⟩
      simp [jsIdOr_eq_getD h0]
  · intro c hc hcid'
    simp only [transferOp, h, hsvc, if_neg hne, updateCounter, updateTicket_counters]
    refine List.mem_map.mpr ⟨c, hc, ?_⟩
    simp [hcid']

/-- C2 witness: transferring the called ticket of `c2WitStore` (customer
"Ann") to service 2 succeeds and removes ticket id 1. -/
theorem C2_transfer_atomic_preserving_witness :
    ((transferOp 1 2 3 7 50 c2WitStore).1.isOk = true) ∧
    (∀ u ∈ (transferOp 1 2 3 7 50 c2WitStore).2.tickets, u.id ≠ 1) := by
  have happ := C2_transfer_atomic_preserving c2WitStore 1 2 3 7 50 c2WitTicket
    (mkService 2 "B" (some 1) (some 999) (some 0))
    (by decide) (by decide) (by decide) (by decide) (by decide)
  exact ⟨happ.1, happ.2.1⟩

/-- C6 counterexample: `presetServiceQueue` with `startNumber = 0` — a
non-positive startNumber — is not rejected: the call succeeds (a
transaction is opened and tickets are inserted), because the code tests
`startNumber < 0`, accepting zero. -/
theorem C6_startNumber_zero_accepted :
    ((presetServiceQueue 1 0 5 0 1000 c6Store).1.isOk = true) ∧
    ((presetServiceQueue 1 0 5 0 1000 c6Store).2.2 = true) ∧
    ¬(0 < (0 : Int)) := by
  exact ⟨by decide, by decide, by decide⟩

/-- C6 (amended): `presetServiceQueue` rejects every non-positive
serviceId, every negative startNumber (zero is accepted), every
non-positive count, and every count greater than 500, and does so
before opening any transaction, so such an invalid request leaves the
store completely unchanged; with valid arguments a transaction is
opened. -/
theorem C6_preset_validation (serviceId startNumber count priority now : Int)
    (st : Store) :
    ((serviceId ≤ 0 ∨ startNumber < 0 ∨ count ≤ 0 ∨ count > 500) →
      (∃ msg, (presetServiceQueue serviceId startNumber count priority now st).1 = .error msg) ∧
      (presetServiceQueue serviceId startNumber count priority now st).2.1 = st ∧
      (presetServiceQueue serviceId startNumber count priority now st).2.2 = false) ∧
    ((0 < serviceId ∧ 0 ≤ startNumber ∧ 0 < count ∧ count ≤ 500) →
      (presetServiceQueue serviceId startNumber count priority now st).2.2 = true) := by
  constructor
  · intro hbad
    unfold presetServiceQueue
    split
    · exact ⟨⟨_, rfl⟩, rfl, rfl⟩
    · split
      · exact ⟨⟨_, rfl⟩, rfl, rfl⟩
      · split
        · exact ⟨⟨_, rfl⟩, rfl, rfl⟩
        · split
          · exact ⟨⟨_, rfl⟩, rfl, rfl⟩
          · exfalso
            rcases hbad with hb | hb | hb | hb <;> omega
  · rintro ⟨h1, h2, h3, h4⟩
    unfold presetServiceQueue
    rw [if_neg (by omega), if_neg (by omega), if_neg (by omega), if_neg (by omega)]
    cases hsvc : findActiveService st serviceId.toNat with
    | none => simp
    | some svc => simp

/-- C6 witness: a negative serviceId is rejected without opening a
transaction. -/
theorem C6_preset_validation_witness :
    ((presetServiceQueue (-1) 5 5 0 1000 c6Store).2.2 = false) ∧ ((-1 : Int) ≤ 0) := by
  refine ⟨((C6_preset_validation (-1) 5 5 0 1000 c6Store).1 (Or.inl (by decide))).2.2, by decide⟩

/-- C9: ticket creation numbering. For every active service, creating a
ticket computes `next = max(current_number ?? 0, (range_start ?? 1) − 1) + 1`;
when a truthy range_end would be exceeded the call fails with 409 and
the store is unchanged; otherwise the issued ticket_number is
`prefix + zero-pad3(next)`, the inserted ticket is in `waiting` state,
and the service's current_number advances to `next`. -/
theorem C9_ticket_numbering (st : Store) (sid : Nat) (prio : Int)
    (nm ph em : Option String) (now : Int) (svc : Service)
    (hsvc : findActiveService st sid = some svc) :
    (∀ e, svc.range_end = some e → e ≠ 0 →
      e < max ((svc.current_number).getD 0) (((svc.range_start).getD 1) - 1) + 1 →
      createTicket sid prio nm ph em now st =
        (.error ⟨409, "Service ticket range exhausted"⟩, st)) ∧
    ((match svc.range_end with
      | none => True
      | some e =>
        e = 0 ∨ max ((svc.current_number).getD 0) (((svc.range_start).getD 1) - 1) + 1 ≤ e) →
      (((createTicket sid prio nm ph em now st).1.toOption.map CreateTicketRes.ticketNumber) =
        some (svc.pfx ++
          pad3 (max ((svc.current_number).getD 0) (((svc.range_start).getD 1) - 1) + 1))) ∧
      (∃ u ∈ (createTicket sid prio nm ph em now st).2.tickets, u.id = st.nextTicketId ∧
        u.ticket_number = svc.pfx ++
          pad3 (max ((svc.current_number).getD 0) (((svc.range_start).getD 1) - 1) + 1) ∧
        u.state = "waiting" ∧ u.service_id = sid) ∧
      (∀ s ∈ (createTicket sid prio nm ph em now st).2.services, s.id = sid →
        s.current_number =
          some (max ((svc.current_number).getD 0) (((svc.range_start).getD 1) - 1) + 1))) := by
  constructor
  · intro e he hne hlt
    simp only [createTicket, hsvc, he]
    rw [if_pos]
    simp only [if_neg hne, decide_eq_true_eq]
    exact hlt
  · intro hok
    have hrange : (match svc.range_end with
        | none => false
        | some e => if e = 0 then false
            else decide (e < max ((svc.current_number).getD 0) (((svc.range_start).getD 1) - 1) + 1)) = false := by
      cases hre : svc.range_end with
      | none => rfl
      | some e =>
        rw [hre] at hok
        rcases hok with h0 | hle
        · simp [h0]
        · by_cases h0 : e = 0
          · simp [h0]
          · simp only [if_neg h0, decide_eq_false_iff_not]
            omega
    refine ⟨?_, ?_, ?_⟩
    · simp only [createTicket, hsvc, hrange, if_neg (by simp : ¬(false = true))]
      rfl
    · simp only [createTicket, hsvc, hrange, if_neg (by simp : ¬(false = true))]
      refine ⟨_, List.mem_append.mpr (Or.inr (List.mem_singleton.mpr rfl)), rfl, rfl, rfl, rfl⟩
    · intro s hs hsid
      simp only [createTicket, hsvc, hrange, if_neg (by simp : ¬(false = true))] at hs
      obtain ⟨s₀, hs₀, himg⟩ := List.mem_map.mp hs
      by_cases hid : s₀.id == sid
      · rw [if_pos hid] at himg
        rw [← himg]
      · rw [if_neg (by simpa using hid)] at himg
        subst himg
        exact absurd hsid (by simpa using hid)

/-- C9 witness: on the scenario store (service prefix "A", range 1–999,
current_number 0, no tickets), the first creation issues "A001" and a
second creation on the resulting store issues "A002". -/
theorem C9_ticket_numbering_witness :
    (((createTicket 1 0 none none none 100 c9Store).1.toOption.map
        CreateTicketRes.ticketNumber) = some "A001") ∧
    (((createTicket 1 0 none none none 200
        (createTicket 1 0 none none none 100 c9Store).2).1.toOption.map
        CreateTicketRes.ticketNumber) = some "A002") := by
  have happ := C9_ticket_numbering c9Store 1 0 none none none 100
    (mkService 1 "A" (some 1) (some 999) (some 0)) (by decide)
  have h1 := (happ.2 (Or.inr (by decide))).1
  exact ⟨by simpa using h1, by decide⟩

/-- Errors of `callNext` are exactly the errors of its read/validation
phase (the writes happen only on success). -/
theorem callNext_error_iff (st : Store) (cid aid : Nat) (rs rt : Option Nat)
    (now : Int) (e : HttpError) :
    (callNext cid aid rs rt now st).1 = .error e ↔
      callNextCore st cid aid rs rt = .error e := by
  unfold callNext
  cases h : callNextCore st cid aid rs rt <;> simp [h]

/-- With no requested ticket, the read phase errors are those of the
service-resolution chain or the no-tickets 404. -/
theorem callNextCore_none_error (st : Store) (cid aid : Nat) (rs : Option Nat)
    (e : HttpError) (h : callNextCore st cid aid rs none = .error e) :
    resolveServiceContext st cid aid rs = .error e ∨
      (∃ svc, resolveServiceContext st cid aid rs = .ok svc ∧
        waitingPickFifo st svc.id = none ∧ e = ⟨404, "No tickets waiting in queue"⟩) := by
  unfold callNextCore at h
  cases hres : resolveServiceContext st cid aid rs with
  | error e' =>
    rw [hres] at h
    simp only [Bind.bind, Except.bind] at h
    injection h with h'
    exact Or.inl (by rw [h'])
  | ok svc =>
    rw [hres] at h
    simp only [Bind.bind, Except.bind] at h
    cases hpick : waitingPickFifo st svc.id with
    | none =>
      rw [hpick] at h
      refine Or.inr ⟨svc, rfl, hpick, ?_⟩
      injection h with h'
      exact h'.symm
    | some t =>
      rw [hpick] at h
      exact absurd h (by simp)

/-- C10: the call-next authorization check is skipped for unassigned
agents. For every call-next request naming an explicit serviceId and no
ticketId, the 403 "Agent is not assigned to this service" error is
raised only when the agent has at least one agent_services assignment
and the requested service is not among them; an agent with zero
assignments never receives a 403 through the service-resolution chain,
and with an active requested service holding a waiting ticket the call
succeeds. -/
theorem C10_unassigned_agent_authorization (st : Store) (cid aid : Nat)
    (sidOpt : Option Nat) (now : Int) :
    (∀ sid e, sidOpt = some sid →
      (callNext cid aid sidOpt none now st).1 = .error e →
      e = ⟨403, "Agent is not assigned to this service"⟩ →
      agentAssignmentsFor st aid ≠ [] ∧
        ¬((agentAssignmentsFor st aid).any (fun a => a.service_id == sid) = true)) ∧
    (agentAssignmentsFor st aid = [] →
      ∀ e, (callNext cid aid sidOpt none now st).1 = .error e → e.status ≠ 403) ∧
    (∀ sid svc t, agentAssignmentsFor st aid = [] → sidOpt = some sid →
      findActiveService st sid = some svc → waitingPickFifo st svc.id = some t →
      (callNext cid aid sidOpt none now st).1.isOk = true) := by
  refine ⟨?_, ?_, ?_⟩
  · intro sid e hsid herr h403
    subst hsid
    subst h403
    have hcore := (callNext_error_iff st cid aid (some sid) none now _).mp herr
    rcases callNextCore_none_error st cid aid (some sid) _ hcore with hres | ⟨svc, _, _, habs⟩
    · cases hfa : findActiveService st sid with
      | none =>
        simp only [resolveServiceContext, hfa] at hres
        exact absurd hres (by simp)
      | some svc =>
        simp only [resolveServiceContext, hfa] at hres
        by_cases hcond : (!(agentAssignmentsFor st aid).isEmpty &&
            !((agentAssignmentsFor st aid).any (fun a => a.service_id == sid))) = true
        · rw [Bool.and_eq_true, Bool.not_eq_true', Bool.not_eq_true'] at hcond
          constructor
          · intro hnil
            rw [hnil] at hcond
            simp at hcond
          · simp [hcond.2]
        · rw [if_neg hcond] at hres
          exact absurd hres (by simp)
    · exact absurd habs (by simp)
  · intro hnil e herr
    have hcore := (callNext_error_iff st cid aid sidOpt none now _).mp herr
    rcases callNextCore_none_error st cid aid sidOpt _ hcore with hres | ⟨svc, _, _, he⟩
    · cases sidOpt with
      | some sid =>
        cases hfa : findActiveService st sid with
        | none =>
          simp only [resolveServiceContext, hfa] at hres
          injection hres with h'
          rw [← h']
          decide
        | some svc =>
          simp [resolveServiceContext, hfa, hnil] at hres
      | none =>
        cases hcd : counterDefaultService st cid with
        | some svc =>
          simp [resolveServiceContext, hnil, hcd] at hres
        | none =>
          cases hfs : firstActiveService st with
          | some svc =>
            simp [resolveServiceContext, hnil, hcd, hfs] at hres
          | none =>
            simp only [resolveServiceContext, hnil, List.isEmpty_nil, Bool.not_true,
              Bool.false_eq_true, if_false, hcd, hfs] at hres
            injection hres with h'
            rw [← h']
            decide
    · rw [he]
      decide
  · intro sid svc t hnil hsid hfa hpick
    subst hsid
    have hres : resolveServiceContext st cid aid (some sid) = .ok svc := by
      simp [resolveServiceContext, hfa, hnil]
    have hcore : callNextCore st cid aid (some sid) none = .ok t := by
      unfold callNextCore
      rw [hres]
      simp only [Bind.bind, Except.bind]
      rw [hpick]
    simp [callNext, hcore, Except.isOk, Except.toBool]

/-- C10 witness: on `c10Store`, agent 7 has zero assignments and
call-next with explicit serviceId 1 succeeds without any authorization
failure. -/
theorem C10_unassigned_agent_authorization_witness :
    (agentAssignmentsFor c10Store 7 = []) ∧
    ((callNext 3 7 (some 1) none 100 c10Store).1.isOk = true) := by
  have happ := C10_unassigned_agent_authorization c10Store 3 7 (some 1) 100
  exact ⟨by decide, happ.2.2 1 (mkService 1 "A" (some 1) (some 999) (some 1))
    (mkWaitingTicket 1 1 0 10) (by decide) rfl (by decide) (by decide)⟩

end Flowmatic
